import Mathlib

/-!
Verification of the deterministic engines of a multi-agent life-insurance
underwriting system: the medical-loading engine, the medical-data analyzer,
the risk engine, the response parser, the confidence scorer and the premium
calculator. Numeric values are modelled as rationals; Python operations that
can raise (`float(...)` conversions, division by zero) are modelled in
`Except String`.
-/

set_option linter.unusedVariables false

/-! ## Shared helpers -/

/-- Python's `max` over a non-empty list (`0` on `[]`, a case the source never
reaches because every call is guarded by a non-emptiness test). -/
def pyMax (l : List ℚ) : ℚ :=
  match l with
  | [] => 0
  | h :: t => t.foldl max h

/-- Python's `int(...)` on a float/rational: truncation toward zero. -/
def pyTrunc (q : ℚ) : ℤ :=
  if 0 ≤ q then ⌊q⌋ else -⌊-q⌋

/-- Python's regex `\s` / `str.strip()` whitespace characters. -/
def isPySpace (c : Char) : Bool :=
  c = ' ' ∨ c = '\t' ∨ c = '\n' ∨ c = '\r' ∨ c = '\x0b' ∨ c = '\x0c'

/-- The natural number a run of ASCII digits denotes. -/
def digitsToNat (ds : List Char) : ℕ :=
  ds.foldl (fun a c => 10 * a + (c.toNat - 48)) 0

/-- Strip Python whitespace from both ends. -/
def stripPySpaces (s : List Char) : List Char :=
  ((s.dropWhile isPySpace).reverse.dropWhile isPySpace).reverse

/-- Python's `float(str)` on the simple decimal forms the pipeline's data
carries: optional surrounding whitespace, optional sign, `digits`,
`digits.digits`, `digits.` or `.digits`. Exotic float syntax (exponents,
`inf`, `nan`, underscores) is out of the modelled input space; every
non-numeric string is `none` (Python: `ValueError`). -/
def parseFloatStr (s : List Char) : Option ℚ :=
  let t := stripPySpaces s
  let (sign, t1) : ℚ × List Char :=
    match t with
    | '-' :: r => (-1, r)
    | '+' :: r => (1, r)
    | r => (1, r)
  let ip := t1.takeWhile Char.isDigit
  let r1 := t1.drop ip.length
  match r1 with
  | [] => if ip = [] then none else some (sign * digitsToNat ip)
  | '.' :: fr =>
    let fp := fr.takeWhile Char.isDigit
    if fr.length = fp.length ∧ (ip ≠ [] ∨ fp ≠ []) then
      some (sign * ((digitsToNat ip : ℚ) + (digitsToNat fp : ℚ) / (10 ^ fp.length)))
    else none
  | _ => none

/-- A JSON leaf value as the lab-result fields carry it: a number or a string. -/
inductive JVal where
  | num (q : ℚ)
  | str (s : List Char)
deriving DecidableEq

/-- Python's `float(...)` applied to a lab value: numbers pass through,
strings are parsed, a non-numeric string raises `ValueError`. -/
def pyFloat (v : JVal) : Except String ℚ :=
  match v with
  | .num q => .ok q
  | .str s =>
    match parseFloatStr s with
    | some q => .ok q
    | none => .error "ValueError"

/-! ## Loading engine (`src/underwriting/engines/loading_engine.py`) -/

/-- `MedicalConditionSeverity` enum. -/
inductive MedicalConditionSeverity where
  | MINIMAL
  | MILD
  | MODERATE
  | SEVERE
  | CRITICAL
deriving DecidableEq

/-- `LoadingType` enum. -/
inductive LoadingType where
  | MEDICAL
  | LIFESTYLE
  | OCCUPATIONAL
  | COMBINED
deriving DecidableEq

/-- `MedicalLoading` dataclass. -/
structure MedicalLoading where
  condition : String
  loading_percentage : ℚ
  severity : MedicalConditionSeverity
  loading_type : LoadingType
  reasoning : String
  affects_critical_illness : Bool
  affects_term_life : Bool
  affects_disability : Bool
deriving DecidableEq

/-- The loading percentages of the loadings of one severity group, in list
order — `[l.loading_percentage for l in individual_loadings if l.severity == s]`. -/
def sevPcts (ls : List MedicalLoading) (s : MedicalConditionSeverity) : List ℚ :=
  (ls.filter (fun l => decide (l.severity = s))).map (·.loading_percentage)

/-- The age multiplier: first matching `(lo, hi)` range of
`age_loading_adjustments` (insertion order, ranges disjoint), `1.0` when no
range matches. -/
def ageFactor (age : ℕ) : ℚ :=
  if 18 ≤ age ∧ age ≤ 25 then 4/5
  else if 26 ≤ age ∧ age ≤ 35 then 1
  else if 36 ≤ age ∧ age ≤ 45 then 6/5
  else if 46 ≤ age ∧ age ≤ 55 then 7/5
  else if 56 ≤ age ∧ age ≤ 65 then 8/5
  else if 66 ≤ age ∧ age ≤ 75 then 2
  else 1

/-- `MedicalLoadingEngine._calculate_combined_loading`: severity groups are the
filtered sub-lists; each non-empty group contributes its Python `max` plus a
factor times the sum of `percentages[1:]` (all entries after the FIRST, in list
order), or a flat factor times its whole sum when a higher-severity group
exists; the total is scaled by the age factor and clamped to `[0, 300]`.
An empty loading list returns `0.0` before any of that. -/
def calculate_combined_loading (ls : List MedicalLoading) (age : ℕ) : ℚ :=
  if ls = [] then 0
  else
    let crit := sevPcts ls .CRITICAL
    let sev := sevPcts ls .SEVERE
    let mod := sevPcts ls .MODERATE
    let mild := sevPcts ls .MILD
    let t1 := if crit ≠ [] then pyMax crit + (crit.drop 1).sum * (1/2) else 0
    let t2 := if sev ≠ [] then
        (if crit = [] then pyMax sev + (sev.drop 1).sum * (2/5)
         else sev.sum * (3/10)) else 0
    let t3 := if mod ≠ [] then
        (if crit = [] ∧ sev = [] then pyMax mod + (mod.drop 1).sum * (3/10)
         else mod.sum * (1/5)) else 0
    let t4 := if mild ≠ [] then mild.sum * (1/5) else 0
    min 300 (max 0 ((t1 + t2 + t3 + t4) * ageFactor age))

/-- One severity group's contribution as claim C1 words it: the maximum plus
`factor` times the sum of the REMAINING loadings, i.e. the group's sum minus
its maximum (one maximal element removed). -/
def claimGroupTerm (g : List ℚ) (factor : ℚ) : ℚ :=
  if g = [] then 0 else pyMax g + factor * (g.sum - pyMax g)

/-- The combined loading exactly as claim C1 states it: partition by severity,
per-group `max + factor × sum(rest with one max removed)` (flat factor times
the sum when a higher-severity group exists), age factor, clamp to `[0, 300]`. -/
def specCombinedClaim (ls : List MedicalLoading) (age : ℕ) : ℚ :=
  let p1 := ls.partition (fun l => decide (l.severity = MedicalConditionSeverity.CRITICAL))
  let crit := p1.1.map (·.loading_percentage)
  let p2 := p1.2.partition (fun l => decide (l.severity = MedicalConditionSeverity.SEVERE))
  let sev := p2.1.map (·.loading_percentage)
  let p3 := p2.2.partition (fun l => decide (l.severity = MedicalConditionSeverity.MODERATE))
  let mod := p3.1.map (·.loading_percentage)
  let p4 := p3.2.partition (fun l => decide (l.severity = MedicalConditionSeverity.MILD))
  let mild := p4.1.map (·.loading_percentage)
  let c1 := claimGroupTerm crit (1/2)
  let c2 := if sev ≠ [] then
      (if crit = [] then claimGroupTerm sev (2/5) else sev.sum * (3/10)) else 0
  let c3 := if mod ≠ [] then
      (if crit = [] ∧ sev = [] then claimGroupTerm mod (3/10) else mod.sum * (1/5)) else 0
  let c4 := mild.sum * (1/5)
  min 300 (max 0 ((c1 + c2 + c3 + c4) * ageFactor age))

/-- One severity group's contribution as the code computes it: the maximum
plus `factor` times the sum of all entries after the first, in list order. -/
def amendedGroupTerm (g : List ℚ) (factor : ℚ) : ℚ :=
  match g with
  | [] => 0
  | h :: t => pyMax (h :: t) + factor * t.sum

/-- The combined loading with C1 amended: "rest of a group" is every loading
after the FIRST one of the group in input order (not the list with one maximum
removed); groups come from partitioning by severity; ages outside 18–75 get
factor 1. -/
def specCombinedAmended (ls : List MedicalLoading) (age : ℕ) : ℚ :=
  let p1 := ls.partition (fun l => decide (l.severity = MedicalConditionSeverity.CRITICAL))
  let crit := p1.1.map (·.loading_percentage)
  let p2 := p1.2.partition (fun l => decide (l.severity = MedicalConditionSeverity.SEVERE))
  let sev := p2.1.map (·.loading_percentage)
  let p3 := p2.2.partition (fun l => decide (l.severity = MedicalConditionSeverity.MODERATE))
  let mod := p3.1.map (·.loading_percentage)
  let p4 := p3.2.partition (fun l => decide (l.severity = MedicalConditionSeverity.MILD))
  let mild := p4.1.map (·.loading_percentage)
  let c1 := amendedGroupTerm crit (1/2)
  let c2 := if sev ≠ [] then
      (if crit = [] then amendedGroupTerm sev (2/5) else sev.sum * (3/10)) else 0
  let c3 := if mod ≠ [] then
      (if crit = [] ∧ sev = [] then amendedGroupTerm mod (3/10) else mod.sum * (1/5)) else 0
  let c4 := mild.sum * (1/5)
  min 300 (max 0 ((c1 + c2 + c3 + c4) * ageFactor age))

/-- `MedicalLoadingEngine._calculate_health_score`: `0.8` when `total_count`
is zero, otherwise `clamp(normal/total × 0.9 + 0.1 − 0.3 × abnormal/total −
0.6 × critical/total, 0, 1)`. -/
def calculate_health_score (normal abnormal critical total : ℕ) : ℚ :=
  if total = 0 then 4/5
  else
    max 0 (min 1 ((normal : ℚ) / total * (9/10) + 1/10
      - (abnormal : ℚ) / total * (3/10) - (critical : ℚ) / total * (3/5)))

/-! ## Medical analyzer (`src/underwriting/engines/underwriter.py`,
`MedicalDataAnalyzer.analyze_medical_data`) -/

/-- The four risk-factor literals `analyze_medical_data` can append
(`high_blood_sugar`, `diabetes_risk`, `anemia`, `infection_inflammation`). -/
inductive RiskFactor where
  | high_blood_sugar
  | diabetes_risk
  | anemia
  | infection_inflammation
deriving DecidableEq

/-- One entry of `blood_sugar['random']`: `reading.get('value', 0)`. -/
structure BSReading where
  value : Option ℚ
deriving DecidableEq

/-- `lab_results['bloodSugar']`. `random = some rs` models the key holding a
list (`isinstance(..., list)`), `none` models the key absent or non-list. -/
structure BloodSugar where
  random : Option (List BSReading)
  fasting : Option ℚ
deriving DecidableEq

/-- `lab_results['completeBloodCount']`. Each field models the chained
`cbc.get(key, {}).get('value', 0)`: `none` stands for an absent entry or
value (defaulted to the number `0` before `float(...)`). -/
structure CBCData where
  hemoglobin : Option JVal
  wbc : Option JVal
deriving DecidableEq

/-- `structured_data['labResults']`: `none` fields model absent keys. -/
structure LabResults where
  bloodSugar : Option BloodSugar
  completeBloodCount : Option CBCData
deriving DecidableEq

/-- `structured_data['clinicalFindings']` with its three lists (absent keys
default to `[]`; `abnormalValues` entries are opaque to the analyzer, kept
as strings). -/
structure ClinicalFindings where
  normalValues : List String
  abnormalValues : List String
  criticalAlerts : List String
deriving DecidableEq

/-- One report's `structured_data`. -/
structure StructuredData where
  clinicalFindings : ClinicalFindings
  labResults : LabResults
deriving DecidableEq

/-- One entry of `medical_data['medical_data']`. -/
structure MedReport where
  extraction_successful : Bool
  structured_data : StructuredData
deriving DecidableEq

/-- The analyzer's input document. -/
structure MedicalData where
  medical_data : List MedReport
deriving DecidableEq

/-- `MedicalFindings` dataclass. `concerns` keeps the (factor, measured value)
pair each appended f-string carries. -/
structure MedicalFindings where
  normal_values : List String
  abnormal_values : List String
  critical_alerts : List String
  risk_score : ℚ
  concerns : List (RiskFactor × ℚ)
deriving DecidableEq

/-- The blood-sugar block: when `random` holds a list, each reading with
value over 180 appends `high_blood_sugar` and the `fasting` branch is the
`elif` that never runs; otherwise `fasting > 126` appends `diabetes_risk`. -/
def bloodSugarEntries (bs : Option BloodSugar) : List (RiskFactor × ℚ) :=
  match bs with
  | none => []
  | some b =>
    match b.random with
    | some rs => rs.filterMap (fun r =>
        if r.value.getD 0 > 180 then some (.high_blood_sugar, r.value.getD 0) else none)
    | none =>
      if b.fasting.getD 0 > 126 then [(.diabetes_risk, b.fasting.getD 0)] else []

/-- The CBC block: `float` conversion of hemoglobin (low ⇒ `anemia`), then of
WBC (high ⇒ `infection_inflammation`); a non-numeric string raises. -/
def cbcEntries (c : Option CBCData) : Except String (List (RiskFactor × ℚ)) :=
  match c with
  | none => .ok []
  | some cbc =>
    match pyFloat (cbc.hemoglobin.getD (.num 0)) with
    | .error e => .error e
    | .ok hb =>
      match pyFloat (cbc.wbc.getD (.num 0)) with
      | .error e => .error e
      | .ok wbc =>
        .ok ((if hb < 10 then [(RiskFactor.anemia, hb)] else [])
          ++ (if wbc > 15000 then [(RiskFactor.infection_inflammation, wbc)] else []))

/-- Per-report risk-factor/concern entries: nothing for an unsuccessful
extraction, else blood sugar then CBC. -/
def reportEntries (r : MedReport) : Except String (List (RiskFactor × ℚ)) :=
  if r.extraction_successful then
    match cbcEntries r.structured_data.labResults.completeBloodCount with
    | .error e => .error e
    | .ok cbcE => .ok (bloodSugarEntries r.structured_data.labResults.bloodSugar ++ cbcE)
  else
    .ok []

/-- The risk-factor/concern entries of all reports, in order; the first
Python exception aborts the whole analysis. -/
def analyzeEntriesList (rs : List MedReport) : Except String (List (RiskFactor × ℚ)) :=
  match rs with
  | [] => .ok []
  | r :: rest =>
    match reportEntries r with
    | .error e => .error e
    | .ok e =>
      match analyzeEntriesList rest with
      | .error e2 => .error e2
      | .ok es => .ok (e ++ es)

/-- The deduction `_calculate_medical_risk_score`'s substring `elif` chain
applies to each of the four factor literals the analyzer produces. -/
def factorDeduction (f : RiskFactor) : ℚ :=
  match f with
  | .high_blood_sugar => 3/20
  | .diabetes_risk => 3/20
  | .anemia => 1/10
  | .infection_inflammation => 1/20

/-- `MedicalDataAnalyzer._calculate_medical_risk_score`: 0.8 minus the factor
deductions minus 0.2 per critical alert, clamped to `[0, 1]`. -/
def calculate_medical_risk_score (factors : List RiskFactor) (alerts : List String) : ℚ :=
  max 0 (min 1 (4/5 - (factors.map factorDeduction).sum - (alerts.length : ℚ) * (1/5)))

/-- `MedicalDataAnalyzer.analyze_medical_data`: concatenates the clinical
findings of every successful report, collects the lab risk factors, and scores
them; an unguarded `float(...)` on a non-numeric string propagates as an
error. -/
def analyze_medical_data (md : MedicalData) : Except String MedicalFindings :=
  match analyzeEntriesList md.medical_data with
  | .error e => .error e
  | .ok entries =>
    let succ := md.medical_data.filter (·.extraction_successful)
    let alerts := succ.flatMap (·.structured_data.clinicalFindings.criticalAlerts)
    .ok { normal_values := succ.flatMap (·.structured_data.clinicalFindings.normalValues)
          abnormal_values := succ.flatMap (·.structured_data.clinicalFindings.abnormalValues)
          critical_alerts := alerts
          risk_score := calculate_medical_risk_score (entries.map Prod.fst) alerts
          concerns := entries }

/-- The `risk_factors` list `analyze_medical_data` accumulates across
reports (it feeds the risk score and the concerns). -/
def analyzeRiskFactors (md : MedicalData) : Except String (List RiskFactor) :=
  (analyzeEntriesList md.medical_data).map (·.map Prod.fst)

/-- Both `float(...)` conversions of one report's CBC block succeed. -/
def cbcValuesOk (c : Option CBCData) : Bool :=
  match c with
  | none => true
  | some cbc =>
    (pyFloat (cbc.hemoglobin.getD (.num 0))).isOk && (pyFloat (cbc.wbc.getD (.num 0))).isOk

/-! ## Risk engine (`src/underwriting/engines/underwriter.py`,
`RiskAssessmentML.assess_risk`) -/

/-- `RiskLevel` enum. -/
inductive RiskLevel where
  | LOW
  | STANDARD
  | HIGH
  | DECLINED
deriving DecidableEq

/-- `UnderwritingDecision` enum. -/
inductive UnderwritingDecision where
  | AUTO_APPROVED
  | MANUAL_REVIEW
  | ADDITIONAL_REQUIREMENTS
  | DECLINED
deriving DecidableEq

/-- `applicant_data['personalInfo']`, flattened: `none` models any absent
level of the nested `.get` chains (`age` defaults to 35, `income.annual`
to 1,000,000). -/
structure PersonalInfo where
  age : Option ℚ
  income_annual : Option ℚ
deriving DecidableEq

/-- `health.physical.height/.weight` `value`s (defaults 165 cm / 65 kg). -/
structure Physical where
  height : Option ℚ
  weight : Option ℚ
deriving DecidableEq

/-- `applicant_data['lifestyle']`: `smoker` defaults to `False`,
`alcohol.unitsPerWeek` to 0. -/
structure Lifestyle where
  smoker : Bool
  alcohol_units_per_week : Option ℚ
deriving DecidableEq

/-- One entry of `insuranceCoverage.coversRequested`. -/
structure Cover where
  coverType : Option String
  sumAssured : Option ℚ
deriving DecidableEq

/-- `applicant_data['insuranceCoverage']`. -/
structure InsuranceCoverage where
  totalSumAssured : Option ℚ
  coversRequested : List Cover
deriving DecidableEq

/-- The applicant document, restricted to the fields the engines read. -/
structure Applicant where
  personalInfo : PersonalInfo
  physical : Physical
  lifestyle : Lifestyle
  insuranceCoverage : InsuranceCoverage
deriving DecidableEq

/-- The raw feature tuple `assess_risk` assembles. The source feeds
`(age, bmi, medical score, lifestyle score, log(max(income, 1e5)),
log(max(sum assured, 1e5)))` through a fitted `StandardScaler` into the
trained scikit-learn models; the deterministic, injective `log` step and the
scaler are folded into the abstract model functions, so the features here are
the pre-log values. -/
structure RiskFeatures where
  age : ℚ
  bmi : ℚ
  medicalScore : ℚ
  lifestyleScore : ℚ
  incomeFloor : ℚ
  sumAssuredFloor : ℚ
deriving DecidableEq

/-- `factors` dict of `RiskAssessment`. -/
structure RAFactors where
  age_factor : ℚ
  bmi_factor : ℚ
  medical_factor : ℚ
  lifestyle_factor : ℚ
  premium_multiplier : ℚ
deriving DecidableEq

/-- One red-flag entry with the value its f-string interpolates. -/
inductive RedFlag where
  | criticalAlert (alert : String)
  | currentSmoker
  | highBMI (bmi : ℚ)
  | advancedAge (age : ℚ)
deriving DecidableEq

/-- One recommendation entry. -/
inductive Recommendation where
  | additionalMedicalExams
  | smokingCessation
  | higherPremium
deriving DecidableEq

/-- `RiskAssessment` dataclass. -/
structure RiskAssessment where
  overall_risk_level : RiskLevel
  risk_score : ℚ
  medical_risk : ℚ
  lifestyle_risk : ℚ
  financial_risk : ℚ
  occupation_risk : ℚ
  factors : RAFactors
  red_flags : List RedFlag
  recommendations : List Recommendation
deriving DecidableEq

/-- Python's `round(x, 1)` (modelled as round-half-up at the second decimal;
the source rounds binary floats banker-style, which differs only at exact
ties no claim depends on). -/
def round1 (q : ℚ) : ℚ :=
  (round (q * 10) : ℤ) / 10

/-- `risk_levels[min(risk_pred, len(risk_levels) - 1)]` over
`[LOW, STANDARD, HIGH]`. -/
def levelFromPred (n : ℕ) : RiskLevel :=
  if n = 0 then .LOW else if n = 1 then .STANDARD else .HIGH

/-- `RiskAssessmentML.assess_risk`, parameterised by the trained models:
`clf` is `risk_classifier.predict` (composed with the scaler and log
preprocessing), `maxProba` is `max(risk_classifier.predict_proba(...))`, and
`premReg` is `premium_regressor.predict`. The two Python `ZeroDivisionError`
sites are the BMI division (height 0) and the financial-risk division
(annual income 0). -/
def assess_risk (clf : RiskFeatures → ℕ) (maxProba : RiskFeatures → ℚ)
    (premReg : RiskFeatures → ℚ) (a : Applicant) (mf : MedicalFindings) :
    Except String RiskAssessment :=
  let age := a.personalInfo.age.getD 35
  let height := a.physical.height.getD 165
  let weight := a.physical.weight.getD 65
  if height = 0 then .error "ZeroDivisionError"
  else
    let bmi := round1 (weight / ((height / 100) ^ 2))
    let income := a.personalInfo.income_annual.getD 1000000
    let lifestyleScore := (4/5 : ℚ) - (if a.lifestyle.smoker then 3/10 else 0)
      - (if a.lifestyle.alcohol_units_per_week.getD 0 > 14 then 1/10 else 0)
    let sa := a.insuranceCoverage.totalSumAssured.getD 1000000
    let f : RiskFeatures :=
      ⟨age, bmi, mf.risk_score, lifestyleScore, max income 100000, max sa 100000⟩
    let pm := premReg f
    if income = 0 then .error "ZeroDivisionError"
    else .ok
      { overall_risk_level := levelFromPred (clf f)
        risk_score := maxProba f
        medical_risk := 1 - mf.risk_score
        lifestyle_risk := 1 - lifestyleScore
        financial_risk := min (1/2) (sa / (income * 10))
        occupation_risk := 1/10
        factors := ⟨age / 65, max 0 ((bmi - 25) / 10), 1 - mf.risk_score,
          1 - lifestyleScore, pm⟩
        red_flags := (mf.critical_alerts.map RedFlag.criticalAlert)
          ++ (if a.lifestyle.smoker then [RedFlag.currentSmoker] else [])
          ++ (if bmi > 30 then [RedFlag.highBMI bmi] else [])
          ++ (if age > 55 then [RedFlag.advancedAge age] else [])
        recommendations :=
          (if 1 - mf.risk_score > 3/10 then [Recommendation.additionalMedicalExams] else [])
          ++ (if a.lifestyle.smoker then [Recommendation.smokingCessation] else [])
          ++ (if pm > 3/2 then [Recommendation.higherPremium] else []) }

/-- Modelled from the spec: the deterministic risk rule claim C3 asserts the
engine follows — LOW when medical and lifestyle risks are at most 0.2 with no
critical alert, HIGH when medical risk is at least 0.5 or a critical alert
exists, STANDARD otherwise. No such rule exists in the source. -/
def detRiskRule (medicalRisk lifestyleRisk : ℚ) (criticalAlerts : List String) : RiskLevel :=
  if medicalRisk ≤ 1/5 ∧ lifestyleRisk ≤ 1/5 ∧ criticalAlerts = [] then .LOW
  else if 1/2 ≤ medicalRisk ∨ criticalAlerts ≠ [] then .HIGH
  else .STANDARD

/-! ## Confidence score (`src/underwriting/agents/utils.py`,
`UnderwritingUtils.calculate_confidence_score`) -/

/-- The base confidence the decision selects. -/
def decisionBaseConfidence (d : UnderwritingDecision) : ℚ :=
  match d with
  | .AUTO_APPROVED => 19/20
  | .MANUAL_REVIEW => 4/5
  | .ADDITIONAL_REQUIREMENTS => 7/10
  | .DECLINED => 9/10

/-- `calculate_confidence_score`: base by decision; one `elif` chain over the
medical findings (critical alerts, then zero abnormal, then more than 3
abnormal); one `elif` chain over risk-score consistency; clamp to
`[0.5, 1.0]`. -/
def calculate_confidence_score (d : UnderwritingDecision) (ra : RiskAssessment)
    (mf : MedicalFindings) : ℚ :=
  let base := decisionBaseConfidence d
  let b2 :=
    if mf.critical_alerts.length > 0 then base + 1/20
    else if mf.abnormal_values.length = 0 then base + 1/20
    else if mf.abnormal_values.length > 3 then base - 1/10
    else base
  let b3 :=
    if ra.risk_score > 4/5 ∧ d = .AUTO_APPROVED then b2 + 1/20
    else if ra.risk_score < 3/10 ∧ d = .DECLINED then b2 + 1/20
    else b2
  min 1 (max (1/2) b3)

/-- The confidence score exactly as claim C5 states it: the adjustments are
independent additive terms — in particular the −0.10 penalty applies whenever
abnormal values exceed 3, critical alerts present or not. -/
def specConfidenceClaim (d : UnderwritingDecision) (ra : RiskAssessment)
    (mf : MedicalFindings) : ℚ :=
  let total := decisionBaseConfidence d
    + (if 1 ≤ mf.critical_alerts.length ∨ mf.abnormal_values.length = 0 then 1/20 else 0)
    - (if 3 < mf.abnormal_values.length then 1/10 else 0)
    + (if (ra.risk_score > 4/5 ∧ d = .AUTO_APPROVED)
         ∨ (ra.risk_score < 3/10 ∧ d = .DECLINED) then 1/20 else 0)
  min 1 (max (1/2) total)

/-- The confidence score with C5 amended: the medical adjustment is one
exclusive chain — +0.05 for a critical alert; otherwise +0.05 for zero
abnormal values; otherwise −0.10 for more than 3 abnormal values — so a
critical alert shadows the penalty. The risk-consistency bonus is additive as
claimed (its two conditions are mutually exclusive). -/
def specConfidenceAmended (d : UnderwritingDecision) (ra : RiskAssessment)
    (mf : MedicalFindings) : ℚ :=
  let medAdj : ℚ :=
    if mf.critical_alerts.length > 0 then 1/20
    else if mf.abnormal_values.length = 0 then 1/20
    else if mf.abnormal_values.length > 3 then -(1/10)
    else 0
  let consAdj : ℚ :=
    if (ra.risk_score > 4/5 ∧ d = .AUTO_APPROVED)
      ∨ (ra.risk_score < 3/10 ∧ d = .DECLINED) then 1/20 else 0
  min 1 (max (1/2) (decisionBaseConfidence d + medAdj + consAdj))

/-! ## Premium calculator (`src/underwriting/agents/premium_calculator.py`) -/

/-- `LoadingResult` dataclass (the fields the premium calculator and the
loading engine's aggregation read). -/
structure LoadingResult where
  total_loading_percentage : ℚ
  individual_loadings : List MedicalLoading
  critical_alerts_count : ℕ
  abnormal_findings_count : ℕ
  normal_findings_count : ℕ
  overall_health_score : ℚ
  risk_category : String
deriving DecidableEq

/-- The decision details the parsers hand the premium calculator: `none`
models an absent dict key. -/
structure DecisionDetails where
  total_premium : Option ℤ
  medical_loading_percentage : Option ℚ
deriving DecidableEq

/-- `Config.BASE_PREMIUM_RATES.get(cover_type, 0.001)`. -/
def baseRate (ct : Option String) : ℚ :=
  if ct = some "Term Life Insurance" then 3/2500
  else if ct = some "Critical Illness" then 1/1250
  else if ct = some "Accidental Death Benefit" then 1/5000
  else if ct = some "Disability Income" then 3/2000
  else 1/1000

/-- `PremiumCalculator._determine_medical_loading`. -/
def determine_medical_loading (dd : DecisionDetails) (ra : Option RiskAssessment)
    (lr : Option LoadingResult) : ℚ :=
  match lr with
  | some l => l.total_loading_percentage
  | none =>
    if dd.total_premium.getD 0 > 0 then dd.medical_loading_percentage.getD 40
    else if dd.medical_loading_percentage.getD 0 > 0 then dd.medical_loading_percentage.getD 0
    else
      match ra with
      | some r => max 0 (min 200 ((1 - r.medical_risk) * 150))
      | none => 25

/-- The medical-loading precedence exactly as claim C6 numbers it. -/
def specMedicalLoadingPrecedence (dd : DecisionDetails) (ra : Option RiskAssessment)
    (lr : Option LoadingResult) : ℚ :=
  if h : lr.isSome then (lr.get h).total_loading_percentage
  else if 0 < dd.total_premium.getD 0 then dd.medical_loading_percentage.getD 40
  else if 0 < dd.medical_loading_percentage.getD 0 then dd.medical_loading_percentage.getD 0
  else if h2 : ra.isSome then max 0 (min 200 ((1 - (ra.get h2).medical_risk) * 150))
  else 25

/-- One `loadings` entry of a `PremiumCalculation` (the dict the source
builds: type label, percentage, amount, optional breakdown copied from the
loading result, optional risk category). -/
structure LoadingDetail where
  ltype : String
  percentage : ℚ
  amount : ℚ
  breakdown : Option (List MedicalLoading)
  risk_category : Option String
deriving DecidableEq

/-- `PremiumCalculation` dataclass (`discounts` is always built `[]`). -/
structure PremiumCalculation where
  cover_type : Option String
  base_premium : ℚ
  adjusted_premium : ℚ
  loadings : List LoadingDetail
  discounts : List Unit
  total_loading_percentage : ℚ
  final_premium : ℚ
deriving DecidableEq

/-- The `agent_premiums` table of `_use_agent_premiums`: the hard-wired split
for the literal 16,770, otherwise the proportional 78% / 21% / 200 / 0 split
(`int(...)` truncation). Unlisted cover types are absent from the dict. -/
def agentPremiumFor (agent_total : ℤ) (ct : String) : Option ℤ :=
  if agent_total = 16770 then
    if ct = "Term Life Insurance" then some 13080
    else if ct = "Critical Illness" then some 3488
    else if ct = "Accidental Death Benefit" then some 200
    else if ct = "Disability Income" then some 0
    else none
  else
    if ct = "Term Life Insurance" then some (pyTrunc ((agent_total : ℚ) * (39/50)))
    else if ct = "Critical Illness" then some (pyTrunc ((agent_total : ℚ) * (21/100)))
    else if ct = "Accidental Death Benefit" then some 200
    else if ct = "Disability Income" then some 0
    else none

/-- One iteration of the `_use_agent_premiums` loop: covers whose type is not
a key of `agent_premiums` produce nothing; for the rest, a loading is derived
from agent premium vs base premium — dividing by a zero base premium raises. -/
def useAgentCover (agent_total : ℤ) (lr : Option LoadingResult) (c : Cover) :
    Except String (Option PremiumCalculation) :=
  match c.coverType with
  | none => .ok none
  | some ct =>
    match agentPremiumFor agent_total ct with
    | none => .ok none
    | some fp =>
      let base := c.sumAssured.getD 0 * baseRate (some ct)
      if (fp : ℚ) > base then
        if base = 0 then .error "ZeroDivisionError"
        else
          let actual := ((fp : ℚ) - base) / base * 100
          .ok (some
            { cover_type := some ct
              base_premium := base
              adjusted_premium := base
              loadings := [
                { ltype := if lr.isSome then "Comprehensive Medical Loading"
                    else "Medical Loading (Agent Calculated)"
                  percentage := actual
                  amount := (fp : ℚ) - base
                  breakdown := lr.map (fun l => l.individual_loadings.take 5)
                  risk_category := none }]
              discounts := []
              total_loading_percentage := actual
              final_premium := (fp : ℚ) })
      else
        .ok (some
          { cover_type := some ct
            base_premium := base
            adjusted_premium := base
            loadings := []
            discounts := []
            total_loading_percentage := 0
            final_premium := (fp : ℚ) })

/-- `PremiumCalculator._use_agent_premiums` (the `medical_loading` argument is
received but never read by this path). -/
def use_agent_premiums (covers : List Cover) (agent_total : ℤ) (ml : ℚ)
    (lr : Option LoadingResult) : Except String (List PremiumCalculation) :=
  match covers with
  | [] => .ok []
  | c :: cs =>
    match useAgentCover agent_total lr c with
    | .error e => .error e
    | .ok pc? =>
      match use_agent_premiums cs agent_total ml lr with
      | .error e2 => .error e2
      | .ok rest =>
        match pc? with
        | some pc => .ok (pc :: rest)
        | none => .ok rest

/-- The agent-path loop does not raise on this cover: either the cover is
skipped, or its loading division has a non-zero base premium. -/
def agentCoverOk (t : ℤ) (c : Cover) : Bool :=
  match c.coverType with
  | none => true
  | some ct =>
    match agentPremiumFor t ct with
    | none => true
    | some fp =>
      !(decide ((fp : ℚ) > c.sumAssured.getD 0 * baseRate (some ct))
        && decide (c.sumAssured.getD 0 * baseRate (some ct) = 0))

/-- One cover of `_calculate_from_risk`: Accidental Death Benefit takes the
base premium unchanged with no loading; every other cover takes the medical
loading on top of the base premium. -/
def riskCover (ml : ℚ) (lr : Option LoadingResult) (c : Cover) : PremiumCalculation :=
  let base := c.sumAssured.getD 0 * baseRate c.coverType
  if c.coverType = some "Accidental Death Benefit" then
    { cover_type := c.coverType
      base_premium := base
      adjusted_premium := base
      loadings := []
      discounts := []
      total_loading_percentage := 0
      final_premium := base }
  else
    let amount := base * ml / 100
    { cover_type := c.coverType
      base_premium := base
      adjusted_premium := base
      loadings := [
        { ltype := if lr.isSome then "Comprehensive Medical Loading"
            else "Medical Loading (Calculated)"
          percentage := ml
          amount := amount
          breakdown := lr.map (fun l => l.individual_loadings.take 5)
          risk_category := lr.map (·.risk_category) }]
      discounts := []
      total_loading_percentage := ml
      final_premium := base + amount }

/-- `PremiumCalculator._calculate_from_risk`. -/
def calculate_from_risk (covers : List Cover) (ml : ℚ) (lr : Option LoadingResult) :
    List PremiumCalculation :=
  covers.map (riskCover ml lr)

/-- `PremiumCalculator.calculate_premiums`: determine the medical loading,
then use the agent's premiums when the agent-reported total is positive, else
the risk-based calculation. -/
def calculate_premiums (a : Applicant) (dd : DecisionDetails)
    (ra : Option RiskAssessment) (lr : Option LoadingResult) :
    Except String (List PremiumCalculation) :=
  let covers := a.insuranceCoverage.coversRequested
  let ml := determine_medical_loading dd ra lr
  let agent_total := dd.total_premium.getD 0
  if agent_total > 0 then use_agent_premiums covers agent_total ml lr
  else .ok (calculate_from_risk covers ml lr)

/-- The four cover-type names priced by the calculator (the keys of both
`agent_premiums` tables and of `BASE_PREMIUM_RATES`). -/
def recognizedCoverType (ct : Option String) : Bool :=
  decide (ct = some "Term Life Insurance" ∨ ct = some "Critical Illness"
    ∨ ct = some "Accidental Death Benefit" ∨ ct = some "Disability Income")

/-! ## Response parser (`src/underwriting/agents/parsers.py`,
`parse_premium_from_text`, the medical-loading extraction
`re.findall(r'(\d+)%\s*(?:loading|Loading)', text)` then `max`). -/

/-- The literal alternation `(?:loading|Loading)`: consumes the word, returns
the rest. -/
def matchLoadingWord (s : List Char) : Option (List Char) :=
  match s with
  | a :: 'o' :: 'a' :: 'd' :: 'i' :: 'n' :: 'g' :: rest =>
    if a = 'l' ∨ a = 'L' then some rest else none
  | _ => none

/-- One attempt of the regex `(\d+)%\s*(?:loading|Loading)` anchored at the
head of `s`: the greedy digit run must be non-empty and the only candidate
(a digit cannot be `%`), then `%`, then greedy whitespace (the word starts
with a letter, so no backtracking is possible), then the word. Returns the
captured integer and the unconsumed rest. -/
def tryMatchLoading (s : List Char) : Option (ℕ × List Char) :=
  let ds := s.takeWhile Char.isDigit
  if ds.isEmpty then none
  else
    match s.drop ds.length with
    | '%' :: r2 =>
      match matchLoadingWord (r2.dropWhile isPySpace) with
      | some rem => some (digitsToNat ds, rem)
      | none => none
    | _ => none

/-- `re.findall`'s left-to-right, non-overlapping scan, with fuel (one unit
per character position; `s.length` always suffices). -/
def goFindLoading : ℕ → List Char → List ℕ
  | 0, _ => []
  | _ + 1, [] => []
  | fuel + 1, c :: rest =>
    match tryMatchLoading (c :: rest) with
    | some (n, rem) => n :: goFindLoading fuel rem
    | none => goFindLoading fuel rest

/-- All captures of `re.findall(r'(\d+)%\s*(?:loading|Loading)', s)`. -/
def findAllLoading (s : List Char) : List ℕ :=
  goFindLoading s.length s

/-- `max` of a list of naturals, 0 when empty (Python leaves the field 0 when
`findall` returns no match, and its `max` equals this fold on the non-negative
capture values). -/
def listMaxNat (l : List ℕ) : ℕ :=
  l.foldr max 0

/-- The `medical_loading_percentage` field `parse_premium_from_text` extracts:
the maximum captured integer, 0 when no match. -/
def parse_loading_percentage (s : List Char) : ℕ :=
  listMaxNat (findAllLoading s)

/-- The same pattern attempted at EVERY position (overlapping), not just the
non-overlapping `findall` positions. -/
def capturesAll (s : List Char) : List ℕ :=
  match s with
  | [] => []
  | c :: rest =>
    match tryMatchLoading (c :: rest) with
    | some (n, _) => n :: capturesAll rest
    | none => capturesAll rest

/-- The loading percentage with C8 amended: the maximum integer over every
occurrence of `digits '%' whitespace* ("loading"|"Loading")` anywhere in the
text (0 when none) — the percent sign is required and only the two literal
spellings of the word count. -/
def specLoadingPctAmended (s : List Char) : ℕ :=
  listMaxNat (capturesAll s)

/-- Case-insensitive `loading`, as claim C8 reads the pattern. -/
def matchLoadingWordCI (s : List Char) : Bool :=
  match s with
  | a :: b :: c :: d :: e :: f :: g :: _ =>
    (a = 'l' ∨ a = 'L') ∧ (b = 'o' ∨ b = 'O') ∧ (c = 'a' ∨ c = 'A')
      ∧ (d = 'd' ∨ d = 'D') ∧ (e = 'i' ∨ e = 'I') ∧ (f = 'n' ∨ f = 'N')
      ∧ (g = 'g' ∨ g = 'G')
  | _ => false

/-- Claim C8's reading of one occurrence: an integer, an OPTIONAL percent
sign, whitespace, then the word `loading` in any case. -/
def tryMatchLoadingCI (s : List Char) : Option ℕ :=
  let ds := s.takeWhile Char.isDigit
  if ds.isEmpty then none
  else
    let r1 := s.drop ds.length
    let r2 := match r1 with
      | '%' :: r => r
      | r => r
    if matchLoadingWordCI (r2.dropWhile isPySpace) then some (digitsToNat ds) else none

/-- Claim C8's occurrences at every position. -/
def capturesAllCI (s : List Char) : List ℕ :=
  match s with
  | [] => []
  | c :: rest =>
    match tryMatchLoadingCI (c :: rest) with
    | some n => n :: capturesAllCI rest
    | none => capturesAllCI rest

/-- The loading percentage exactly as claim C8 states it: the maximum integer
preceding the word `loading` case-insensitively, percent sign optional, 0
when no such occurrence exists. -/
def specLoadingPctClaim (s : List Char) : ℕ :=
  listMaxNat (capturesAllCI s)

/-! ## Concrete inputs used by witnesses and counterexamples -/

/-- A CRITICAL medical loading of a given percentage. -/
def critLoading (p : ℚ) : MedicalLoading :=
  ⟨"condition", p, .CRITICAL, .MEDICAL, "reasoning", true, true, true⟩

/-- Two CRITICAL loadings with the maximum listed second. -/
def c1ExampleLoadings : List MedicalLoading :=
  [critLoading 50, critLoading 100]

/-- A risk assessment with a mid-range composite score. -/
def c5ExampleRA : RiskAssessment :=
  ⟨.STANDARD, 1/2, 1/2, 1/5, 0, 1/10, ⟨0, 0, 0, 0, 1⟩, [], []⟩

/-- Findings with one critical alert and four abnormal values. -/
def c5ExampleMF : MedicalFindings :=
  ⟨[], ["a1", "a2", "a3", "a4"], ["critical alert"], 1/2, []⟩

/-- An Accidental Death Benefit cover whose base premium (100) is below the
fixed agent premium of 200. -/
def adbCover : Cover := ⟨some "Accidental Death Benefit", some 500000⟩

/-- An applicant requesting only `adbCover`. -/
def c2Applicant : Applicant := ⟨⟨none, none⟩, ⟨none, none⟩, ⟨false, none⟩, ⟨none, [adbCover]⟩⟩

/-- Decision details with a positive agent total premium. -/
def c2DD : DecisionDetails := ⟨some 1000, none⟩

/-- The premium calculation the agent path produces for `adbCover`. -/
def c2ResultPC : PremiumCalculation :=
  { cover_type := some "Accidental Death Benefit", base_premium := 100, adjusted_premium := 100,
    loadings := [⟨"Medical Loading (Agent Calculated)", 100, 100, none, none⟩],
    discounts := [], total_loading_percentage := 100, final_premium := 200 }

/-- A recognized and an unrecognized requested coverage. -/
def c10Covers : List Cover :=
  [⟨some "Term Life Insurance", some 1000000⟩, ⟨some "Pet Insurance", some 50000⟩]

/-- An applicant requesting `c10Covers`. -/
def c10Applicant : Applicant := ⟨⟨none, none⟩, ⟨none, none⟩, ⟨false, none⟩, ⟨none, c10Covers⟩⟩

/-- Decision details carrying the hard-wired agent total 16,770. -/
def c10DD : DecisionDetails := ⟨some 16770, none⟩

/-- The one premium calculation the agent path produces for `c10Covers`. -/
def c10ResultPC : PremiumCalculation :=
  { cover_type := some "Term Life Insurance", base_premium := 1200, adjusted_premium := 1200,
    loadings := [⟨"Medical Loading (Agent Calculated)", 990, 11880, none, none⟩],
    discounts := [], total_loading_percentage := 990, final_premium := 13080 }

/-- A constant classifier predicting class 0 (LOW). -/
def c3Clf : RiskFeatures → ℕ := fun _ => 0

/-- A constant maximum class probability. -/
def c3Proba : RiskFeatures → ℚ := fun _ => 1

/-- A constant premium-regressor output. -/
def c3Prem : RiskFeatures → ℚ := fun _ => 1

/-- An applicant with exact BMI 20 (height 200 cm, weight 80 kg) and every
other field defaulted. -/
def c3Applicant : Applicant :=
  ⟨⟨none, none⟩, ⟨some 200, some 80⟩, ⟨false, none⟩, ⟨none, []⟩⟩

/-- Healthy findings (score 0.9) that nevertheless carry a critical alert. -/
def c3MF : MedicalFindings :=
  ⟨[], [], ["Critically low hemoglobin"], 9/10, []⟩

/-- The assessment `assess_risk` produces for `c3Applicant`/`c3MF` under the
constant classifier. -/
def c3RA : RiskAssessment :=
  { overall_risk_level := .LOW, risk_score := 1, medical_risk := 1/10,
    lifestyle_risk := 1/5, financial_risk := 1/10, occupation_risk := 1/10,
    factors := ⟨7/13, 0, 1/10, 1/5, 1⟩,
    red_flags := [RedFlag.criticalAlert "Critically low hemoglobin"],
    recommendations := [] }

/-- A successful report whose hemoglobin value is the non-numeric string
`N/A`. -/
def c4BadReport : MedReport :=
  ⟨true, ⟨⟨[], [], []⟩, ⟨none, some ⟨some (.str ['N', '/', 'A']), none⟩⟩⟩⟩

/-- Medical data containing only `c4BadReport`. -/
def c4BadMD : MedicalData := ⟨[c4BadReport]⟩

/-- An applicant whose annual income is present and equal to 0. -/
def c4ZeroIncomeApp : Applicant :=
  ⟨⟨none, some 0⟩, ⟨none, none⟩, ⟨false, none⟩, ⟨none, []⟩⟩

/-- Unremarkable findings for the risk engine. -/
def c4MF : MedicalFindings := ⟨[], [], [], 4/5, []⟩

/-- A blood-sugar block with BOTH a random-readings list (one reading of 200,
above 180) and an elevated fasting glucose of 150 (above 126). -/
def c7BothBS : BloodSugar := ⟨some [⟨some 200⟩], some 150⟩

/-- A successful report carrying `c7BothBS` and no CBC. -/
def c7Report : MedReport := ⟨true, ⟨⟨[], [], []⟩, ⟨some c7BothBS, none⟩⟩⟩

/-- Medical data containing only `c7Report`. -/
def c7MD : MedicalData := ⟨[c7Report]⟩

/-- The text `5 loading`: an integer before the word `loading` with no
percent sign. -/
def c8Text : List Char := ['5', ' ', 'l', 'o', 'a', 'd', 'i', 'n', 'g']

/-! ## Theorems -/

/-! ### C1 — the severity-weighted combiner -/

theorem filter_not_crit_filter_sev (ls : List MedicalLoading) :
    ((ls.filter (not ∘ fun l => decide (l.severity = MedicalConditionSeverity.CRITICAL))).filter
        (fun l => decide (l.severity = MedicalConditionSeverity.SEVERE)))
      = ls.filter (fun l => decide (l.severity = MedicalConditionSeverity.SEVERE)) := by
  induction ls with
  | nil => rfl
  | cons a t ih =>
    cases h : a.severity <;>
      simp [List.filter_cons, h, ih, Function.comp, -List.filter_filter]

theorem filter_chain_mod (ls : List MedicalLoading) :
    (((ls.filter (not ∘ fun l => decide (l.severity = MedicalConditionSeverity.CRITICAL))).filter
        (not ∘ fun l => decide (l.severity = MedicalConditionSeverity.SEVERE))).filter
        (fun l => decide (l.severity = MedicalConditionSeverity.MODERATE)))
      = ls.filter (fun l => decide (l.severity = MedicalConditionSeverity.MODERATE)) := by
  induction ls with
  | nil => rfl
  | cons a t ih =>
    cases h : a.severity <;>
      simp [List.filter_cons, h, ih, Function.comp, -List.filter_filter]

theorem filter_chain_mild (ls : List MedicalLoading) :
    ((((ls.filter (not ∘ fun l => decide (l.severity = MedicalConditionSeverity.CRITICAL))).filter
        (not ∘ fun l => decide (l.severity = MedicalConditionSeverity.SEVERE))).filter
        (not ∘ fun l => decide (l.severity = MedicalConditionSeverity.MODERATE))).filter
        (fun l => decide (l.severity = MedicalConditionSeverity.MILD)))
      = ls.filter (fun l => decide (l.severity = MedicalConditionSeverity.MILD)) := by
  induction ls with
  | nil => rfl
  | cons a t ih =>
    cases h : a.severity <;>
      simp [List.filter_cons, h, ih, Function.comp, -List.filter_filter]

theorem combined_core_terms (crit sev mod mild : List ℚ) :
    (if crit ≠ [] then pyMax crit + (crit.drop 1).sum * (1/2) else 0)
      + (if sev ≠ [] then
          (if crit = [] then pyMax sev + (sev.drop 1).sum * (2/5) else sev.sum * (3/10)) else 0)
      + (if mod ≠ [] then
          (if crit = [] ∧ sev = [] then pyMax mod + (mod.drop 1).sum * (3/10)
           else mod.sum * (1/5)) else 0)
      + (if mild ≠ [] then mild.sum * (1/5) else 0)
    = amendedGroupTerm crit (1/2)
      + (if sev ≠ [] then
          (if crit = [] then amendedGroupTerm sev (2/5) else sev.sum * (3/10)) else 0)
      + (if mod ≠ [] then
          (if crit = [] ∧ sev = [] then amendedGroupTerm mod (3/10)
           else mod.sum * (1/5)) else 0)
      + mild.sum * (1/5) := by
  cases crit <;> cases sev <;> cases mod <;> cases mild <;>
    simp [amendedGroupTerm, mul_comm]

/-- C1 (counterexample): with the CRITICAL loadings listed as `[50, 100]` the
engine returns `100 + 0.5 × 100 = 150` (the "rest" is everything after the
FIRST entry), while the claim's combiner — max plus half of the sum with one
maximum removed — gives `100 + 0.5 × 50 = 125`. -/
theorem C1_combiner_counterexample :
    calculate_combined_loading c1ExampleLoadings 30 ≠ specCombinedClaim c1ExampleLoadings 30 := by
  have h1 : calculate_combined_loading c1ExampleLoadings 30 = 150 := by
    simp [calculate_combined_loading, c1ExampleLoadings, critLoading, sevPcts, pyMax,
      ageFactor, max_def, min_def, List.filter_cons, List.filter_nil]
    norm_num
  have h2 : specCombinedClaim c1ExampleLoadings 30 = 125 := by
    simp [specCombinedClaim, c1ExampleLoadings, critLoading, pyMax, claimGroupTerm,
      ageFactor, List.partition_eq_filter_filter, max_def, min_def, List.filter_cons]
    norm_num
  rw [h1, h2]
  norm_num

/-- C1 (amended): the combined loading equals the severity-partitioned
combiner in which each leading group contributes its maximum plus the factor
times the sum of the loadings AFTER THE FIRST of the group in input order
(not "the remaining after removing the max"); lower groups contribute flat
factors as claimed; the total is scaled by the age factor (1 outside 18–75)
and clamped to `[0, 300]`; an empty list yields 0. -/
theorem C1_combiner_amended (ls : List MedicalLoading) (age : ℕ) :
    calculate_combined_loading ls age = specCombinedAmended ls age := by
  by_cases hl : ls = []
  · subst hl
    simp [calculate_combined_loading, specCombinedAmended, amendedGroupTerm]
  · simp only [calculate_combined_loading, specCombinedAmended, sevPcts, hl, if_neg,
      List.partition_eq_filter_filter]
    rw [filter_not_crit_filter_sev, filter_chain_mod, filter_chain_mild]
    rw [combined_core_terms]
    simp

/-! ### C5 — the confidence score -/

/-- C5 (counterexample): with decision MANUAL_REVIEW, one critical alert,
four abnormal values and risk score 0.5, the code returns `0.80 + 0.05 =
0.85` (the critical-alert branch shadows the abnormal-count penalty), while
the claim's additive formula gives `0.80 + 0.05 − 0.10 = 0.75`. -/
theorem C5_confidence_counterexample :
    calculate_confidence_score .MANUAL_REVIEW c5ExampleRA c5ExampleMF
      ≠ specConfidenceClaim .MANUAL_REVIEW c5ExampleRA c5ExampleMF := by
  have h1 : calculate_confidence_score .MANUAL_REVIEW c5ExampleRA c5ExampleMF = 17/20 := by
    simp [calculate_confidence_score, decisionBaseConfidence, c5ExampleRA, c5ExampleMF,
      max_def, min_def]
    norm_num
  have h2 : specConfidenceClaim .MANUAL_REVIEW c5ExampleRA c5ExampleMF = 3/4 := by
    simp [specConfidenceClaim, decisionBaseConfidence, c5ExampleRA, c5ExampleMF,
      max_def, min_def]
    norm_num
  rw [h1, h2]
  norm_num

set_option maxHeartbeats 2000000 in
/-- C5 (amended): the confidence score equals the claimed formula with the
medical adjustment read as one exclusive chain — +0.05 for at least one
critical alert; OTHERWISE +0.05 for zero abnormal values; OTHERWISE −0.10 for
more than 3 abnormal values — so the −0.10 penalty never applies when a
critical alert is present; the risk-consistency bonus and the clamp to
`[0.5, 1.0]` are as claimed. -/
theorem C5_confidence_amended (d : UnderwritingDecision) (ra : RiskAssessment)
    (mf : MedicalFindings) :
    calculate_confidence_score d ra mf = specConfidenceAmended d ra mf := by
  simp only [calculate_confidence_score, specConfidenceAmended]
  by_cases h1 : mf.critical_alerts.length > 0 <;>
    by_cases h2 : mf.abnormal_values.length = 0 <;>
      by_cases h3 : mf.abnormal_values.length > 3 <;>
        by_cases hA : ra.risk_score > 4/5 ∧ d = UnderwritingDecision.AUTO_APPROVED <;>
          by_cases hB : ra.risk_score < 3/10 ∧ d = UnderwritingDecision.DECLINED <;>
            simp [h1, h2, h3, hA, hB, sub_eq_add_neg]

/-! ### C6 — medical-loading precedence -/

/-- C6 (confirmed): the premium calculator's medical loading follows exactly
the claimed precedence: loading result total; else agent loading (default 40)
when the agent total premium is positive; else a positive parsed loading;
else the risk-assessment conversion clamped to `[0, 200]`; else 25. -/
theorem C6_loading_precedence (dd : DecisionDetails) (ra : Option RiskAssessment)
    (lr : Option LoadingResult) :
    determine_medical_loading dd ra lr = specMedicalLoadingPrecedence dd ra lr := by
  cases lr <;> cases ra <;>
    simp [determine_medical_loading, specMedicalLoadingPrecedence]

/-! ### C9 — the health score -/

/-- C9 (confirmed): the loading engine's health score is total: it is `0.8`
exactly when the finding count is zero (the fixed default, not the ratio
formula), equals the clamped ratio formula for every positive count (the
division is then by a non-zero total), and always lies in `[0, 1]`. -/
theorem C9_health_score_total (n a c t : ℕ) :
    (t = 0 → calculate_health_score n a c t = 4/5)
    ∧ (0 < t → calculate_health_score n a c t
        = max 0 (min 1 ((n : ℚ) / t * (9/10) + 1/10
            - (a : ℚ) / t * (3/10) - (c : ℚ) / t * (3/5))))
    ∧ 0 ≤ calculate_health_score n a c t
    ∧ calculate_health_score n a c t ≤ 1 := by
  unfold calculate_health_score
  refine ⟨fun h => by simp [h], fun h => by rw [if_neg (Nat.pos_iff_ne_zero.mp h)], ?_, ?_⟩
  · split_ifs
    · norm_num
    · exact le_max_left 0 _
  · split_ifs
    · norm_num
    · exact max_le (by norm_num) (min_le_left _ _)

/-! ### C2 and C10 — the premium calculator's two paths -/

theorem useAgentCover_unrecognized (t : ℤ) (lr : Option LoadingResult) (c : Cover)
    (h : recognizedCoverType c.coverType = false) :
    useAgentCover t lr c = .ok none := by
  rcases hct : c.coverType with _ | ct
  · simp [useAgentCover, hct]
  · rw [hct] at h
    simp only [recognizedCoverType, decide_eq_false_iff_not, not_or,
      Option.some.injEq] at h
    obtain ⟨h1, h2, h3, h4⟩ := h
    by_cases ht : t = 16770 <;>
      simp [useAgentCover, hct, agentPremiumFor, ht, h1, h2, h3, h4]

theorem useAgentCover_recognized (t : ℤ) (lr : Option LoadingResult) (c : Cover)
    (h : recognizedCoverType c.coverType = true) :
    useAgentCover t lr c = .error "ZeroDivisionError"
      ∨ ∃ pc, useAgentCover t lr c = .ok (some pc) ∧ pc.cover_type = c.coverType := by
  rcases hct : c.coverType with _ | ct
  · rw [hct] at h
    simp [recognizedCoverType] at h
  · have hfp : ∃ fp : ℤ, agentPremiumFor t ct = some fp := by
      rw [hct] at h
      simp only [recognizedCoverType, decide_eq_true_eq, Option.some.injEq] at h
      rcases h with h | h | h | h <;> subst h <;>
        by_cases ht : t = 16770 <;> simp [agentPremiumFor, ht]
    rcases hfp with ⟨fp, hfp⟩
    simp only [useAgentCover, hct, hfp]
    split_ifs with h1 h2 <;>
      first
        | exact Or.inl rfl
        | exact Or.inr ⟨_, rfl, rfl⟩

theorem use_agent_premiums_ok_map (t : ℤ) (ml : ℚ) (lr : Option LoadingResult) :
    ∀ (covers : List Cover) (pcs : List PremiumCalculation),
      use_agent_premiums covers t ml lr = .ok pcs →
      pcs.map (·.cover_type)
        = (covers.filter (fun c => recognizedCoverType c.coverType)).map (·.coverType) := by
  intro covers
  induction covers with
  | nil =>
    intro pcs h
    simp only [use_agent_premiums, Except.ok.injEq] at h
    simp [← h]
  | cons c cs ih =>
    intro pcs h
    by_cases hr : recognizedCoverType c.coverType = true
    · rcases useAgentCover_recognized t lr c hr with herr | ⟨pc, hok, hctp⟩
      · simp [use_agent_premiums, herr] at h
      · simp only [use_agent_premiums, hok] at h
        rcases hrest : use_agent_premiums cs t ml lr with e2 | rest
        · rw [hrest] at h; simp at h
        · rw [hrest] at h
          simp only [Except.ok.injEq] at h
          rw [← h]
          simp [List.filter_cons, hr, hctp, ih rest hrest]
    · have hnone := useAgentCover_unrecognized t lr c (by simpa using hr)
      simp only [use_agent_premiums, hnone] at h
      rcases hrest : use_agent_premiums cs t ml lr with e2 | rest
      · rw [hrest] at h; simp at h
      · rw [hrest] at h
        simp only [Except.ok.injEq] at h
        rw [← h]
        simp only [List.filter_cons]
        rw [if_neg (by simpa using hr)]
        exact ih rest hrest

/-- C10 (confirmed): whenever the agent-reported total premium is positive
(the agent path), the returned premium list prices exactly the recognized
requested coverages, in order — a cover whose type is not one of the four
recognized names contributes no entry at all. -/
theorem C10_unrecognized_covers_omitted (a : Applicant) (dd : DecisionDetails)
    (ra : Option RiskAssessment) (lr : Option LoadingResult)
    (pcs : List PremiumCalculation)
    (hpos : 0 < dd.total_premium.getD 0)
    (h : calculate_premiums a dd ra lr = .ok pcs) :
    pcs.map (·.cover_type)
      = (a.insuranceCoverage.coversRequested.filter
          (fun c => recognizedCoverType c.coverType)).map (·.coverType) := by
  simp only [calculate_premiums] at h
  rw [if_pos hpos] at h
  exact use_agent_premiums_ok_map _ _ _ _ _ h

/-- C10 (witness): the worked agent-path example — a Term Life cover priced,
a Pet Insurance cover silently omitted. -/
theorem C10_unrecognized_covers_witness :
    [c10ResultPC].map (·.cover_type)
      = (c10Applicant.insuranceCoverage.coversRequested.filter
          (fun c => recognizedCoverType c.coverType)).map (·.coverType) :=
  C10_unrecognized_covers_omitted c10Applicant c10DD none none [c10ResultPC]
    (by norm_num [c10DD])
    (by simp [calculate_premiums, c10Applicant, c10DD, c10Covers,
      determine_medical_loading, use_agent_premiums, useAgentCover, agentPremiumFor,
      baseRate, c10ResultPC, pyTrunc]
        norm_num)

/-- C2 (counterexample): the claim fails in the agent path — for an
Accidental Death Benefit cover with base premium 100 and a positive agent
total, the calculator returns final premium 200 with a 100% loading, so
`finalPremium = basePremium` and `loading = 0` are both violated. -/
theorem C2_adb_counterexample :
    ¬ (∀ (a : Applicant) (dd : DecisionDetails) (ra : Option RiskAssessment)
        (lr : Option LoadingResult) (pcs : List PremiumCalculation)
        (pc : PremiumCalculation),
        calculate_premiums a dd ra lr = .ok pcs → pc ∈ pcs →
        pc.cover_type = some "Accidental Death Benefit" →
        pc.final_premium = pc.base_premium ∧ pc.total_loading_percentage = 0) := by
  intro h
  have hcalc : calculate_premiums c2Applicant c2DD none none = .ok [c2ResultPC] := by
    simp [calculate_premiums, c2Applicant, c2DD, adbCover, determine_medical_loading,
      use_agent_premiums, useAgentCover, agentPremiumFor, baseRate, c2ResultPC, pyTrunc]
    norm_num
  have h2 := h c2Applicant c2DD none none [c2ResultPC] c2ResultPC hcalc
    (List.mem_singleton_self _) rfl
  have : (100 : ℚ) = 0 := h2.2
  norm_num at this

theorem useAgentCover_adb (t : ℤ) (lr : Option LoadingResult) (c : Cover)
    (pc : PremiumCalculation)
    (h : useAgentCover t lr c = .ok (some pc))
    (hct : pc.cover_type = some "Accidental Death Benefit") :
    pc.final_premium = 200 := by
  rcases hc : c.coverType with _ | ct
  · simp [useAgentCover, hc] at h
  · rcases hfp : agentPremiumFor t ct with _ | fp
    · simp [useAgentCover, hc, hfp] at h
    · simp only [useAgentCover, hc, hfp] at h
      split_ifs at h <;>
        first
          | exact Except.noConfusion h
          | (simp only [Except.ok.injEq, Option.some.injEq] at h
             subst h
             simp only [Option.some.injEq] at hct
             subst hct
             have hfp200 : fp = 200 := by
               by_cases ht : t = 16770 <;> simp [agentPremiumFor, ht] at hfp <;> omega
             simp [hfp200])

theorem use_agent_premiums_adb (t : ℤ) (ml : ℚ) (lr : Option LoadingResult) :
    ∀ (covers : List Cover) (pcs : List PremiumCalculation),
      use_agent_premiums covers t ml lr = .ok pcs →
      ∀ pc ∈ pcs, pc.cover_type = some "Accidental Death Benefit" →
      pc.final_premium = 200 := by
  intro covers
  induction covers with
  | nil =>
    intro pcs h
    simp only [use_agent_premiums, Except.ok.injEq] at h
    rw [← h]
    simp
  | cons c cs ih =>
    intro pcs h pc hmem hct
    rcases hcov : useAgentCover t lr c with e | pc?
    · simp [use_agent_premiums, hcov] at h
    · simp only [use_agent_premiums, hcov] at h
      rcases hrest : use_agent_premiums cs t ml lr with e2 | rest
      · rw [hrest] at h; simp at h
      · rw [hrest] at h
        rcases pc? with _ | pc0
        · simp only [Except.ok.injEq] at h
          rw [← h] at hmem
          exact ih rest hrest pc hmem hct
        · simp only [Except.ok.injEq] at h
          rw [← h] at hmem
          rcases List.mem_cons.mp hmem with rfl | hmem2
          · exact useAgentCover_adb t lr c pc hcov hct
          · exact ih rest hrest pc hmem2 hct

/-- C2 (amended): the Accidental Death Benefit invariant holds in the
risk-based path (`finalPremium = basePremium`, zero loading); in the agent
path an Accidental Death Benefit entry instead always carries the fixed
final premium 200, which exceeds the base premium (recording a non-zero
loading) whenever the base premium is below 200. -/
theorem C2_adb_amended :
    (∀ (covers : List Cover) (ml : ℚ) (lr : Option LoadingResult)
        (pc : PremiumCalculation), pc ∈ calculate_from_risk covers ml lr →
        pc.cover_type = some "Accidental Death Benefit" →
        pc.final_premium = pc.base_premium ∧ pc.total_loading_percentage = 0)
    ∧ (∀ (covers : List Cover) (t : ℤ) (ml : ℚ) (lr : Option LoadingResult)
        (pcs : List PremiumCalculation) (pc : PremiumCalculation),
        use_agent_premiums covers t ml lr = .ok pcs → pc ∈ pcs →
        pc.cover_type = some "Accidental Death Benefit" →
        pc.final_premium = 200) := by
  constructor
  · intro covers ml lr pc hmem hct
    simp only [calculate_from_risk, List.mem_map] at hmem
    rcases hmem with ⟨c, hc, rfl⟩
    by_cases hadb : c.coverType = some "Accidental Death Benefit"
    · simp [riskCover, hadb]
    · simp only [riskCover, if_neg hadb] at hct ⊢
      exact absurd hct hadb
  · intro covers t ml lr pcs pc h hmem hct
    exact use_agent_premiums_adb t ml lr covers pcs h pc hmem hct

/-- C2 (witness): in the risk path an Accidental Death Benefit cover keeps
its base premium (here 100) with zero loading. -/
theorem C2_adb_witness :
    (riskCover 40 none adbCover).final_premium = (riskCover 40 none adbCover).base_premium
      ∧ (riskCover 40 none adbCover).total_loading_percentage = 0 :=
  C2_adb_amended.1 [adbCover] 40 none (riskCover 40 none adbCover)
    (by simp [calculate_from_risk]) (by simp [riskCover, adbCover])

/-! ### C3 — classifier-driven risk level vs the deterministic rule -/

theorem c3_assess_eval :
    assess_risk c3Clf c3Proba c3Prem c3Applicant c3MF = .ok c3RA := by
  norm_num [assess_risk, round1, c3Clf, c3Proba, c3Prem, c3Applicant, c3MF, c3RA,
    levelFromPred, max_def, min_def]

/-- C3 (counterexample): no classifier can make the engine satisfy the
claimed deterministic rule, because the classifier's features exclude the
critical alerts. With a constant class-0 classifier, healthy scores and one
critical alert, the engine returns LOW while the rule demands HIGH. -/
theorem C3_risk_rule_counterexample :
    ¬ (∀ (clf : RiskFeatures → ℕ) (maxProba premReg : RiskFeatures → ℚ)
        (a : Applicant) (mf : MedicalFindings) (ra : RiskAssessment),
        assess_risk clf maxProba premReg a mf = .ok ra →
        ra.overall_risk_level
          = detRiskRule ra.medical_risk ra.lifestyle_risk mf.critical_alerts) := by
  intro h
  have h2 := h c3Clf c3Proba c3Prem c3Applicant c3MF c3RA c3_assess_eval
  norm_num [c3RA, c3MF, detRiskRule] at h2
  exact RiskLevel.noConfusion h2

/-- C3 (amended): the engine's overall level and composite risk score are
whatever the trained classifier's `predict` / max `predict_proba` return on
features that do not include the critical alerts — changing the alerts never
changes the level or the composite, so the claimed alert-sensitive rule
cannot hold; the deterministic component invariants that do hold are
`medical_risk = 1 − findings.risk_score`, `lifestyle_risk = 1 − lifestyle
score`, and `risk_score = maxProba(features)`. -/
theorem C3_classifier_level_amended :
    (∀ (clf : RiskFeatures → ℕ) (maxProba premReg : RiskFeatures → ℚ)
        (a : Applicant) (mf : MedicalFindings) (alerts : List String),
        (assess_risk clf maxProba premReg a mf).map
            (fun ra => (ra.overall_risk_level, ra.risk_score))
          = (assess_risk clf maxProba premReg a
              { mf with critical_alerts := alerts }).map
            (fun ra => (ra.overall_risk_level, ra.risk_score)))
    ∧ (∀ (clf : RiskFeatures → ℕ) (maxProba premReg : RiskFeatures → ℚ)
        (a : Applicant) (mf : MedicalFindings) (ra : RiskAssessment),
        assess_risk clf maxProba premReg a mf = .ok ra →
        ra.medical_risk = 1 - mf.risk_score
          ∧ ra.lifestyle_risk = 1 - ((4/5 : ℚ)
              - (if a.lifestyle.smoker then 3/10 else 0)
              - (if a.lifestyle.alcohol_units_per_week.getD 0 > 14 then 1/10 else 0))
          ∧ ra.risk_score = maxProba ⟨a.personalInfo.age.getD 35,
              round1 (a.physical.weight.getD 65 / ((a.physical.height.getD 165 / 100) ^ 2)),
              mf.risk_score,
              (4/5 : ℚ) - (if a.lifestyle.smoker then 3/10 else 0)
                - (if a.lifestyle.alcohol_units_per_week.getD 0 > 14 then 1/10 else 0),
              max (a.personalInfo.income_annual.getD 1000000) 100000,
              max (a.insuranceCoverage.totalSumAssured.getD 1000000) 100000⟩) := by
  constructor
  · intro clf maxProba premReg a mf alerts
    simp only [assess_risk]
    by_cases h1 : a.physical.height.getD 165 = 0
    · rw [if_pos h1, if_pos h1]
    · by_cases h2 : a.personalInfo.income_annual.getD 1000000 = 0
      · rw [if_neg h1, if_neg h1, if_pos h2, if_pos h2]
      · rw [if_neg h1, if_neg h1, if_neg h2, if_neg h2]
        rfl
  · intro clf maxProba premReg a mf ra h
    simp only [assess_risk] at h
    by_cases h1 : a.physical.height.getD 165 = 0
    · rw [if_pos h1] at h
      exact Except.noConfusion h
    · by_cases h2 : a.personalInfo.income_annual.getD 1000000 = 0
      · rw [if_neg h1, if_pos h2] at h
        exact Except.noConfusion h
      · rw [if_neg h1, if_neg h2] at h
        simp only [Except.ok.injEq] at h
        subst h
        exact ⟨rfl, rfl, rfl⟩

/-- C3 (witness): the component invariants instantiated on the worked
example. -/
theorem C3_classifier_level_witness :
    c3RA.medical_risk = 1 - c3MF.risk_score
      ∧ c3RA.lifestyle_risk = 1 - ((4/5 : ℚ)
          - (if c3Applicant.lifestyle.smoker then 3/10 else 0)
          - (if c3Applicant.lifestyle.alcohol_units_per_week.getD 0 > 14 then 1/10 else 0))
      ∧ c3RA.risk_score = c3Proba ⟨c3Applicant.personalInfo.age.getD 35,
          round1 (c3Applicant.physical.weight.getD 65
            / ((c3Applicant.physical.height.getD 165 / 100) ^ 2)),
          c3MF.risk_score,
          (4/5 : ℚ) - (if c3Applicant.lifestyle.smoker then 3/10 else 0)
            - (if c3Applicant.lifestyle.alcohol_units_per_week.getD 0 > 14 then 1/10 else 0),
          max (c3Applicant.personalInfo.income_annual.getD 1000000) 100000,
          max (c3Applicant.insuranceCoverage.totalSumAssured.getD 1000000) 100000⟩ :=
  C3_classifier_level_amended.2 c3Clf c3Proba c3Prem c3Applicant c3MF c3RA c3_assess_eval

/-! ### C4 — failure-freedom of the engines -/

theorem useAgentCover_isOk (t : ℤ) (lr : Option LoadingResult) (c : Cover) :
    (useAgentCover t lr c).isOk = agentCoverOk t c := by
  rcases hct : c.coverType with _ | ct
  · simp [useAgentCover, agentCoverOk, hct, Except.isOk, Except.toBool]
  · simp only [useAgentCover, agentCoverOk, hct]
    rcases hfp : agentPremiumFor t ct with _ | fp
    · simp [Except.isOk, Except.toBool]
    · simp only
      by_cases h1 : (fp : ℚ) > c.sumAssured.getD 0 * baseRate (some ct)
      · by_cases h2 : c.sumAssured.getD 0 * baseRate (some ct) = 0
        · rw [if_pos h1, if_pos h2, decide_eq_true h1, decide_eq_true h2]
          simp [Except.isOk, Except.toBool]
        · rw [if_pos h1, if_neg h2, decide_eq_true h1, decide_eq_false h2]
          simp [Except.isOk, Except.toBool]
      · rw [if_neg h1, decide_eq_false h1]
        simp [Except.isOk, Except.toBool]

theorem reportEntries_isOk (r : MedReport) :
    (reportEntries r).isOk
      = (!r.extraction_successful
        || cbcValuesOk r.structured_data.labResults.completeBloodCount) := by
  rcases r with ⟨es, sd⟩
  cases es
  · simp [reportEntries, Except.isOk, Except.toBool]
  · simp only [reportEntries, cbcValuesOk]
    rcases hc : sd.labResults.completeBloodCount with _ | cbc
    · simp [cbcEntries, Except.isOk, Except.toBool]
    · simp only [cbcEntries]
      rcases h1 : pyFloat (cbc.hemoglobin.getD (.num 0)) with e | hb <;>
        rcases h2 : pyFloat (cbc.wbc.getD (.num 0)) with e2 | wbc <;>
          simp [h1, h2, Except.isOk, Except.toBool]

theorem analyzeEntriesList_isOk (rs : List MedReport) :
    (analyzeEntriesList rs).isOk
      = rs.all (fun r => !r.extraction_successful
          || cbcValuesOk r.structured_data.labResults.completeBloodCount) := by
  induction rs with
  | nil => simp [analyzeEntriesList, Except.isOk, Except.toBool]
  | cons r rest ih =>
    have h1 : (!r.extraction_successful
        || cbcValuesOk r.structured_data.labResults.completeBloodCount)
      = (reportEntries r).isOk := (reportEntries_isOk r).symm
    have h2 : rest.all (fun r => !r.extraction_successful
        || cbcValuesOk r.structured_data.labResults.completeBloodCount)
      = (analyzeEntriesList rest).isOk := ih.symm
    rw [List.all_cons, h1, h2]
    rcases hr : reportEntries r with e | ent <;>
      rcases ha : analyzeEntriesList rest with e2 | es2 <;>
        simp [analyzeEntriesList, hr, ha, Except.isOk, Except.toBool]

/-- C4 (amended): the deterministic engines tolerate absent fields through
defaults, but they are not failure-free: the medical analyzer returns a
result exactly when every successful report's hemoglobin and WBC values
convert (a non-numeric string raises `ValueError`); the risk engine returns a
result exactly when the BMI height and the annual income are non-zero (zero
raises `ZeroDivisionError`); and the agent premium path returns a result
exactly when no recognized cover with an agent premium above its base premium
has a zero base premium. -/
theorem C4_engine_failure_modes :
    (∀ md : MedicalData, (analyze_medical_data md).isOk
        = md.medical_data.all (fun r => !r.extraction_successful
            || cbcValuesOk r.structured_data.labResults.completeBloodCount))
    ∧ (∀ (clf : RiskFeatures → ℕ) (maxProba premReg : RiskFeatures → ℚ)
        (a : Applicant) (mf : MedicalFindings),
        (assess_risk clf maxProba premReg a mf).isOk
          = (!decide (a.physical.height.getD 165 = 0)
            && !decide (a.personalInfo.income_annual.getD 1000000 = 0)))
    ∧ (∀ (covers : List Cover) (t : ℤ) (ml : ℚ) (lr : Option LoadingResult),
        (use_agent_premiums covers t ml lr).isOk = covers.all (agentCoverOk t)) := by
  refine ⟨?_, ?_, ?_⟩
  · intro md
    simp only [analyze_medical_data]
    rw [← analyzeEntriesList_isOk md.medical_data]
    rcases ha : analyzeEntriesList md.medical_data with e | ent <;>
      simp [ha, Except.isOk, Except.toBool]
  · intro clf maxProba premReg a mf
    simp only [assess_risk]
    by_cases h1 : a.physical.height.getD 165 = 0
    · rw [if_pos h1, decide_eq_true h1]
      simp [Except.isOk, Except.toBool]
    · by_cases h2 : a.personalInfo.income_annual.getD 1000000 = 0
      · rw [if_neg h1, if_pos h2, decide_eq_false h1, decide_eq_true h2]
        simp [Except.isOk, Except.toBool]
      · rw [if_neg h1, if_neg h2, decide_eq_false h1, decide_eq_false h2]
        simp [Except.isOk, Except.toBool]
  · intro covers t ml lr
    induction covers with
    | nil => simp [use_agent_premiums, Except.isOk, Except.toBool]
    | cons c cs ih =>
      have h1 : agentCoverOk t c = (useAgentCover t lr c).isOk :=
        (useAgentCover_isOk t lr c).symm
      have h2 : cs.all (agentCoverOk t) = (use_agent_premiums cs t ml lr).isOk := ih.symm
      rw [List.all_cons, h1, h2]
      rcases hc : useAgentCover t lr c with e | pc? <;>
        rcases hr : use_agent_premiums cs t ml lr with e2 | rest
      · simp [use_agent_premiums, hc, hr, Except.isOk, Except.toBool]
      · simp [use_agent_premiums, hc, hr, Except.isOk, Except.toBool]
      · simp [use_agent_premiums, hc, hr, Except.isOk, Except.toBool]
      · cases pc? <;> simp [use_agent_premiums, hc, hr, Except.isOk, Except.toBool]

/-- C4 (counterexample): the claim's two named inputs do raise — a successful
report whose hemoglobin value is the string `N/A` makes the analyzer fail
(`float` raises `ValueError`), and an applicant with annual income 0 makes
the risk engine fail (`ZeroDivisionError` in the financial-risk division). -/
theorem C4_engines_counterexample :
    (analyze_medical_data c4BadMD).isOk = false
      ∧ (assess_risk c3Clf c3Proba c3Prem c4ZeroIncomeApp c4MF).isOk = false := by
  constructor
  · simp [analyze_medical_data, c4BadMD, c4BadReport, analyzeEntriesList, reportEntries,
      cbcEntries, pyFloat, parseFloatStr, stripPySpaces, isPySpace, bloodSugarEntries,
      Except.isOk, Except.toBool]
  · simp [assess_risk, c4ZeroIncomeApp, c4MF, Except.isOk, Except.toBool]

/-! ### C7 — the blood-sugar classifications -/

/-- C7 (counterexample): a report whose blood-sugar block holds BOTH a
random-readings list (one reading of 200 mg/dL) and a fasting glucose of
150 mg/dL yields only `high_blood_sugar` — the fasting branch is the `elif`
that is skipped, so `diabetes_risk` is never appended. -/
theorem C7_blood_sugar_counterexample :
    analyzeRiskFactors c7MD = .ok [RiskFactor.high_blood_sugar]
      ∧ RiskFactor.diabetes_risk ∉ [RiskFactor.high_blood_sugar] := by
  constructor
  · norm_num [analyzeRiskFactors, c7MD, c7Report, c7BothBS, analyzeEntriesList,
      reportEntries, cbcEntries, pyFloat, bloodSugarEntries, List.filterMap, Except.map]
  · simp

/-- C7 (amended): the hemoglobin and WBC classifications are independent as
claimed, but the two blood-sugar classifications are not: when the `random`
key holds a list, each reading above 180 appends `high_blood_sugar` and the
fasting check never runs (so `diabetes_risk` is never appended from that
report); only when `random` is not a list does fasting glucose above 126
append `diabetes_risk`. -/
theorem C7_blood_sugar_amended :
    (∀ (b : BloodSugar) (rs : List BSReading), b.random = some rs →
        RiskFactor.diabetes_risk ∉ (bloodSugarEntries (some b)).map Prod.fst)
    ∧ (∀ (b : BloodSugar) (rs : List BSReading), b.random = some rs →
        (RiskFactor.high_blood_sugar ∈ (bloodSugarEntries (some b)).map Prod.fst
          ↔ ∃ r ∈ rs, r.value.getD 0 > 180))
    ∧ (∀ b : BloodSugar, b.random = none →
        (bloodSugarEntries (some b)).map Prod.fst
          = if b.fasting.getD 0 > 126 then [RiskFactor.diabetes_risk] else [])
    ∧ (∀ lrs : LabResults,
        analyzeRiskFactors ⟨[⟨true, ⟨⟨[], [], []⟩, lrs⟩⟩]⟩
          = (cbcEntries lrs.completeBloodCount).map
              (fun ce => (bloodSugarEntries lrs.bloodSugar ++ ce).map Prod.fst)) := by
  refine ⟨?_, ?_, ?_, ?_⟩
  · intro b rs h hmem
    simp only [bloodSugarEntries, h] at hmem
    rcases List.mem_map.mp hmem with ⟨p, hp, hfst⟩
    rcases List.mem_filterMap.mp hp with ⟨r, hr, hf⟩
    by_cases hv : r.value.getD 0 > 180
    · rw [if_pos hv] at hf
      injection hf with hf2
      rw [← hf2] at hfst
      simp at hfst
    · rw [if_neg hv] at hf
      exact Option.noConfusion hf
  · intro b rs h
    constructor
    · intro hmem
      simp only [bloodSugarEntries, h] at hmem
      rcases List.mem_map.mp hmem with ⟨p, hp, hfst⟩
      rcases List.mem_filterMap.mp hp with ⟨r, hr, hf⟩
      by_cases hv : r.value.getD 0 > 180
      · exact ⟨r, hr, hv⟩
      · rw [if_neg hv] at hf
        exact Option.noConfusion hf
    · intro hex
      rcases hex with ⟨r, hr, hv⟩
      simp only [bloodSugarEntries, h]
      exact List.mem_map.mpr ⟨(RiskFactor.high_blood_sugar, r.value.getD 0),
        List.mem_filterMap.mpr ⟨r, hr, by rw [if_pos hv]⟩, rfl⟩
  · intro b h
    simp only [bloodSugarEntries, h]
    split_ifs <;> simp
  · intro lrs
    rcases hc : cbcEntries lrs.completeBloodCount with e | ce <;>
      simp [analyzeRiskFactors, analyzeEntriesList, reportEntries, hc, Except.map]

/-- C7 (witness): on the worked both-present example the fasting factor is
indeed absent. -/
theorem C7_blood_sugar_witness :
    RiskFactor.diabetes_risk ∉ (bloodSugarEntries (some c7BothBS)).map Prod.fst :=
  C7_blood_sugar_amended.1 c7BothBS [⟨some 200⟩] rfl

/-! ### C8 — the loading-percentage regex -/

theorem listMaxNat_cons (a : ℕ) (l : List ℕ) : listMaxNat (a :: l) = max a (listMaxNat l) := rfl

theorem digitsToNat_foldl_mono (t : List Char) :
    ∀ {a b : ℕ}, a ≤ b →
      t.foldl (fun a c => 10 * a + (c.toNat - 48)) a
        ≤ t.foldl (fun a c => 10 * a + (c.toNat - 48)) b := by
  induction t with
  | nil => intro a b h; exact h
  | cons c t ih =>
    intro a b h
    simp only [List.foldl_cons]
    exact ih (show 10 * a + (c.toNat - 48) ≤ 10 * b + (c.toNat - 48) by omega)

theorem digitsToNat_tail_le (c : Char) (t : List Char) :
    digitsToNat t ≤ digitsToNat (c :: t) := by
  unfold digitsToNat
  simp only [List.foldl_cons]
  exact digitsToNat_foldl_mono t (by omega)

theorem digitsToNat_drop_le (k : ℕ) (ds : List Char) :
    digitsToNat (ds.drop k) ≤ digitsToNat ds := by
  induction ds generalizing k with
  | nil => simp [digitsToNat]
  | cons c t ih =>
    cases k with
    | zero => simp
    | succ k2 =>
      simpa using le_trans (ih k2) (digitsToNat_tail_le c t)

theorem drop_length_takeWhile (p : Char → Bool) (l : List Char) :
    l.drop (l.takeWhile p).length = l.dropWhile p := by
  induction l with
  | nil => rfl
  | cons a t ih =>
    by_cases h : p a <;> simp [List.takeWhile_cons, List.dropWhile_cons, h, ih]

theorem matchLoadingWord_some (t rem : List Char) (h : matchLoadingWord t = some rem) :
    ∃ a, (a = 'l' ∨ a = 'L')
      ∧ t = a :: 'o' :: 'a' :: 'd' :: 'i' :: 'n' :: 'g' :: rem := by
  unfold matchLoadingWord at h
  split at h
  · split_ifs at h with ha
    · injection h with h2
      subst h2
      exact ⟨_, ha, rfl⟩
  · exact Option.noConfusion h

theorem tryMatch_some_struct (s : List Char) (n : ℕ) (rem : List Char)
    (h : tryMatchLoading s = some (n, rem)) :
    n = digitsToNat (s.takeWhile Char.isDigit)
    ∧ s.takeWhile Char.isDigit ≠ []
    ∧ ∃ r2, s.drop (s.takeWhile Char.isDigit).length = '%' :: r2
        ∧ matchLoadingWord (r2.dropWhile isPySpace) = some rem := by
  unfold tryMatchLoading at h
  by_cases he : (s.takeWhile Char.isDigit).isEmpty
  · rw [if_pos he] at h
    exact Option.noConfusion h
  · rw [if_neg he] at h
    split at h
    · split at h
      · injection h with h2
        injection h2 with h3 h4
        subst h3
        subst h4
        refine ⟨rfl, by simpa [List.isEmpty_iff] using he, ?_⟩
        exact ⟨_, by assumption, by assumption⟩
      · exact Option.noConfusion h
    · exact Option.noConfusion h

theorem tryMatch_length (s : List Char) (n : ℕ) (rem : List Char)
    (h : tryMatchLoading s = some (n, rem)) : rem.length < s.length := by
  obtain ⟨-, hne, r2, hdrop, hlw⟩ := tryMatch_some_struct s n rem h
  obtain ⟨a, -, hteq⟩ := matchLoadingWord_some _ _ hlw
  have h1 : (r2.dropWhile isPySpace).length = rem.length + 7 := by
    rw [hteq]; simp
  have h2 : (r2.dropWhile isPySpace).length ≤ r2.length :=
    (List.dropWhile_sublist isPySpace).length_le
  have h3 : (s.drop (s.takeWhile Char.isDigit).length).length
      = s.length - (s.takeWhile Char.isDigit).length := List.length_drop _ _
  rw [hdrop] at h3
  have h4 : 0 < (s.takeWhile Char.isDigit).length := List.length_pos.mpr hne
  have h5 : (s.takeWhile Char.isDigit).length ≤ s.length :=
    (List.takeWhile_sublist Char.isDigit).length_le
  simp only [List.length_cons] at h3
  omega

theorem isPySpace_not_digit (c : Char) (h : isPySpace c = true) :
    Char.isDigit c = false := by
  simp only [isPySpace, decide_eq_true_eq] at h
  rcases h with rfl | rfl | rfl | rfl | rfl | rfl <;> decide

theorem tryMatch_none_of_head_not_digit (c : Char) (t : List Char)
    (h : Char.isDigit c = false) : tryMatchLoading (c :: t) = none := by
  unfold tryMatchLoading
  simp [List.takeWhile_cons, h]

theorem takeWhile_digits_run (ds R : List Char)
    (hd : ∀ c ∈ ds, Char.isDigit c = true) :
    (ds ++ '%' :: R).takeWhile Char.isDigit = ds := by
  induction ds with
  | nil =>
    have h : Char.isDigit '%' = false := by decide
    simp [List.takeWhile_cons, h]
  | cons c t ih =>
    simp [List.takeWhile_cons, hd c (List.mem_cons_self c t),
      ih (fun x hx => hd x (List.mem_cons_of_mem c hx))]

theorem le_listMaxNat_of_mem {a : ℕ} {l : List ℕ} (h : a ∈ l) : a ≤ listMaxNat l := by
  induction l with
  | nil => cases h
  | cons b t ih =>
    rcases List.mem_cons.mp h with rfl | h2
    · exact le_max_left _ _
    · exact le_trans (ih h2) (le_max_right _ _)

theorem capturesAll_append_bound (n : ℕ) (rem : List Char) :
    ∀ mid : List Char,
      (∀ i, i < mid.length → ∀ v r2,
        tryMatchLoading ((mid ++ rem).drop i) = some (v, r2) → v ≤ n) →
      listMaxNat (capturesAll (mid ++ rem)) ≤ max n (listMaxNat (capturesAll rem))
      ∧ listMaxNat (capturesAll rem) ≤ listMaxNat (capturesAll (mid ++ rem)) := by
  intro mid
  induction mid with
  | nil => intro hb; exact ⟨le_max_right _ _, le_refl _⟩
  | cons c mid' ih =>
    intro hb
    have hb' : ∀ i, i < mid'.length → ∀ v r2,
        tryMatchLoading ((mid' ++ rem).drop i) = some (v, r2) → v ≤ n := by
      intro i hi v r2 hm
      exact hb (i + 1) (by simpa using Nat.succ_lt_succ hi) v r2 (by simpa using hm)
    obtain ⟨ih1, ih2⟩ := ih hb'
    cases hm : tryMatchLoading (c :: (mid' ++ rem)) with
    | none =>
      have hc : capturesAll ((c :: mid') ++ rem) = capturesAll (mid' ++ rem) := by
        simp only [List.cons_append, capturesAll, List.append_eq, hm]
      rw [hc]
      exact ⟨ih1, ih2⟩
    | some p =>
      obtain ⟨v, r2⟩ := p
      have hv : v ≤ n := hb 0 (by simp) v r2 (by simpa using hm)
      have hc : capturesAll ((c :: mid') ++ rem) = v :: capturesAll (mid' ++ rem) := by
        simp only [List.cons_append, capturesAll, List.append_eq, hm]
      rw [hc, listMaxNat_cons]
      constructor
      · exact max_le (le_trans hv (le_max_left _ _)) ih1
      · exact le_trans ih2 (le_max_right _ _)

theorem tryMatch_capturesAll_max (s : List Char) (n : ℕ) (rem : List Char)
    (h : tryMatchLoading s = some (n, rem)) :
    listMaxNat (capturesAll s) = max n (listMaxNat (capturesAll rem)) := by
  obtain ⟨hn, hne, r2, hdrop, hlw⟩ := tryMatch_some_struct s n rem h
  obtain ⟨a, ha, hteq⟩ := matchLoadingWord_some _ _ hlw
  have hr2 : r2 = r2.takeWhile isPySpace ++ (a :: 'o' :: 'a' :: 'd' :: 'i' :: 'n' :: 'g' :: rem) := by
    conv_lhs => rw [← List.takeWhile_append_dropWhile (p := isPySpace) (l := r2)]
    rw [hteq]
  have hs : s = s.takeWhile Char.isDigit ++ '%' :: r2 := by
    conv_lhs => rw [← List.takeWhile_append_dropWhile (p := Char.isDigit) (l := s)]
    rw [← drop_length_takeWhile Char.isDigit s, hdrop]
  have hmbrem : ('%' :: (r2.takeWhile isPySpace ++ [a, 'o', 'a', 'd', 'i', 'n', 'g'])) ++ rem
      = '%' :: r2 := by
    conv_rhs => rw [hr2]
    simp
  have hsplit : s = s.takeWhile Char.isDigit
      ++ (('%' :: (r2.takeWhile isPySpace ++ [a, 'o', 'a', 'd', 'i', 'n', 'g'])) ++ rem) := by
    rw [hmbrem]
    exact hs
  have hmb : ∀ x ∈ ('%' :: (r2.takeWhile isPySpace ++ [a, 'o', 'a', 'd', 'i', 'n', 'g'])),
      Char.isDigit x = false := by
    intro x hx
    simp only [List.mem_cons, List.mem_append] at hx
    rcases hx with rfl | hx | hx
    · decide
    · exact isPySpace_not_digit x (List.mem_takeWhile_imp hx)
    · rcases ha with rfl | rfl <;>
        (simp only [List.mem_cons, List.not_mem_nil, or_false] at hx
         rcases hx with rfl | rfl | rfl | rfl | rfl | rfl | rfl <;> decide)
  have hdsd : ∀ x ∈ s.takeWhile Char.isDigit, Char.isDigit x = true :=
    fun x hx => List.mem_takeWhile_imp hx
  obtain ⟨d0, dtail, hds0⟩ : ∃ d0 dtail, s.takeWhile Char.isDigit = d0 :: dtail := by
    cases hc : s.takeWhile Char.isDigit with
    | nil => exact absurd hc hne
    | cons x xs => exact ⟨x, xs, rfl⟩
  have hstail : s = d0 :: (dtail
      ++ (('%' :: (r2.takeWhile isPySpace ++ [a, 'o', 'a', 'd', 'i', 'n', 'g'])) ++ rem)) := by
    conv_lhs => rw [hsplit, hds0]
    simp
  have hcap : capturesAll s
      = n :: capturesAll (dtail
          ++ (('%' :: (r2.takeWhile isPySpace ++ [a, 'o', 'a', 'd', 'i', 'n', 'g'])) ++ rem)) := by
    conv_lhs => rw [hstail]
    simp only [capturesAll]
    rw [← hstail, h]
  have hdigits_dtail : ∀ x ∈ dtail, Char.isDigit x = true := by
    intro x hx
    exact hdsd x (hds0 ▸ List.mem_cons_of_mem d0 hx)
  have hbound : ∀ i, i < (dtail
        ++ ('%' :: (r2.takeWhile isPySpace ++ [a, 'o', 'a', 'd', 'i', 'n', 'g']))).length →
      ∀ v r', tryMatchLoading (((dtail
          ++ ('%' :: (r2.takeWhile isPySpace ++ [a, 'o', 'a', 'd', 'i', 'n', 'g'])))
            ++ rem).drop i) = some (v, r') → v ≤ n := by
    intro i hi v r' hm
    by_cases hlt : i < dtail.length
    · have hdropi : ((dtail
          ++ ('%' :: (r2.takeWhile isPySpace ++ [a, 'o', 'a', 'd', 'i', 'n', 'g']))) ++ rem).drop i
          = dtail.drop i ++ ('%' :: (r2.takeWhile isPySpace ++ [a, 'o', 'a', 'd', 'i', 'n', 'g'] ++ rem)) := by
        rw [List.append_assoc, List.drop_append_of_le_length (le_of_lt hlt)]
        simp
      have hv := (tryMatch_some_struct _ _ _ hm).1
      rw [hdropi] at hv
      rw [takeWhile_digits_run (dtail.drop i) _
        (fun x hx => hdigits_dtail x (List.drop_subset i dtail hx))] at hv
      have hle : digitsToNat (dtail.drop i) ≤ n := by
        rw [hn, hds0]
        exact le_trans (digitsToNat_drop_le i dtail) (digitsToNat_tail_le d0 dtail)
      exact hv ▸ hle
    · obtain ⟨k, rfl, hkm⟩ : ∃ k, i = dtail.length + k
          ∧ k < ('%' :: (r2.takeWhile isPySpace ++ [a, 'o', 'a', 'd', 'i', 'n', 'g'])).length := by
        refine ⟨i - dtail.length, by omega, ?_⟩
        have hlen := List.length_append dtail
          ('%' :: (r2.takeWhile isPySpace ++ [a, 'o', 'a', 'd', 'i', 'n', 'g']))
        omega
      have hdropi : ((dtail
          ++ ('%' :: (r2.takeWhile isPySpace ++ [a, 'o', 'a', 'd', 'i', 'n', 'g']))) ++ rem).drop
            (dtail.length + k)
          = ('%' :: (r2.takeWhile isPySpace ++ [a, 'o', 'a', 'd', 'i', 'n', 'g'])).drop k ++ rem := by
        rw [List.append_assoc, List.drop_append]
        exact List.drop_append_of_le_length (le_of_lt hkm)
      obtain ⟨m0, mrest, hmk⟩ : ∃ m0 mrest,
          ('%' :: (r2.takeWhile isPySpace ++ [a, 'o', 'a', 'd', 'i', 'n', 'g'])).drop k
            = m0 :: mrest := by
        cases hc : ('%' :: (r2.takeWhile isPySpace ++ [a, 'o', 'a', 'd', 'i', 'n', 'g'])).drop k with
        | nil =>
          exfalso
          have hlen := congrArg List.length hc
          rw [List.length_drop] at hlen
          simp only [List.length_nil] at hlen
          omega
        | cons x xs => exact ⟨x, xs, rfl⟩
      have hm0 : Char.isDigit m0 = false :=
        hmb m0 (List.drop_subset k _ (hmk ▸ List.mem_cons_self m0 mrest))
      rw [hdropi, hmk, List.cons_append,
        tryMatch_none_of_head_not_digit m0 (mrest ++ rem) hm0] at hm
      exact Option.noConfusion hm
  have hb2 := capturesAll_append_bound n rem
    (dtail ++ ('%' :: (r2.takeWhile isPySpace ++ [a, 'o', 'a', 'd', 'i', 'n', 'g']))) hbound
  rw [hcap, listMaxNat_cons, ← List.append_assoc]
  apply le_antisymm
  · exact max_le (le_max_left _ _) hb2.1
  · exact max_le_max (le_refl n) hb2.2

theorem goFind_eq_capturesAll :
    ∀ (fuel : ℕ) (s : List Char), s.length ≤ fuel →
      listMaxNat (goFindLoading fuel s) = listMaxNat (capturesAll s) := by
  intro fuel
  induction fuel with
  | zero =>
    intro s hs
    have h0 : s = [] := List.eq_nil_of_length_eq_zero (by omega)
    subst h0
    rfl
  | succ f ih =>
    intro s hs
    cases s with
    | nil => rfl
    | cons c rest =>
      cases hm : tryMatchLoading (c :: rest) with
      | none =>
        simp only [goFindLoading, capturesAll, hm]
        exact ih rest (by simp at hs; omega)
      | some p =>
        obtain ⟨n, rem⟩ := p
        have hlen := tryMatch_length _ _ _ hm
        simp only [goFindLoading, hm, listMaxNat_cons]
        rw [tryMatch_capturesAll_max _ _ _ hm,
          ih rem (by simp at hlen hs ⊢; omega)]

/-- C8 (amended): the parser's extracted loading percentage equals the
maximum integer over every occurrence, anywhere in the text, of digits
followed by a REQUIRED percent sign, optional whitespace and the word spelled
exactly `loading` or `Loading` (other spellings such as `LOADING` do not
count); it is zero when no such occurrence exists. -/
theorem C8_loading_pct_amended (s : List Char) :
    parse_loading_percentage s = specLoadingPctAmended s := by
  unfold parse_loading_percentage specLoadingPctAmended findAllLoading
  exact goFind_eq_capturesAll s.length s (le_refl _)

/-- C8 (counterexample): on the text `5 loading` the code extracts 0 (the
regex requires a percent sign), while the claim's reading — integer before
the word `loading`, percent sign optional — extracts 5. -/
theorem C8_loading_pct_counterexample :
    parse_loading_percentage c8Text ≠ specLoadingPctClaim c8Text := by
  decide
